import Mathlib

/-!
Verification development for the inventory-extension-odg reconciliation
engine.  The definitions below are a shallow embedding of the Go sources:

* `pkg/odg/tasks/tasks.go`          — payload decoding, retry classification
* `pkg/odg/tasks/orphan_vms_aws.go` — AWS VM handler (with metrics and
  runtime artefacts)
* `pkg/odg/tasks/orphan_vms_azure.go` — Azure VM handler and the GCP VM
  handler variant that tracks runtime artefacts
* `pkg/odg/tasks/orphan_public_ip_gcp.go` — GCP public IP address handler
* `pkg/odg/tasks/metrics.go` (second document) — OpenStack server handler
  (with metrics and runtime artefacts)
* `pkg/odg/api/client/client.go`    — Delivery Service API client
* `pkg/odg/models/models.go`        — orphan resource row shapes
* `pkg/odg/api/types/types.go`      — API data types

Go errors are modelled as an explicit wrap chain, remote I/O as an
environment of per-operation responses, and each handler as a pure
function from its task payload, database result and remote environment to
a classified result together with the ordered list of observable effects
(database queries, HTTP requests, metric updates).
-/

/-- GoError models the error values that flow through the task handlers:
the client's APIError (method, URL, status code, body), the sentinel
validation errors of tasks.go, unmarshalling and database failures, the
asynq.SkipRetry sentinel, wrapping via fmt.Errorf with a %w verb, and the
wrap produced by MaybeSkipRetry / asynqutils.SkipRetry which attaches the
SkipRetry sentinel to an inner error. -/
inductive GoError where
  | apiError (method url : String) (statusCode : Nat) (body : String)
  | errNoPayload
  | errNoQuery
  | errNoComponentName
  | unmarshalFailure (msg : String)
  | dbError (msg : String)
  | skipRetrySentinel
  | wrapSkipRetry (inner : GoError)
  | wrapped (msg : String) (inner : GoError)
  | other (msg : String)
deriving DecidableEq, Repr

/-- errorsAsAPIErrorStatus models `errors.As(err, &apiErr)` followed by
reading `apiErr.StatusCode`: it walks the unwrap chain and returns the
status code of the first (and in this program only) APIError found. -/
def errorsAsAPIErrorStatus : GoError → Option Nat
  | .apiError _ _ code _ => some code
  | .wrapSkipRetry e => errorsAsAPIErrorStatus e
  | .wrapped _ e => errorsAsAPIErrorStatus e
  | _ => none

/-- containsAPIErrorWithStatus decides whether the error is, or wraps, an
APIError carrying the given status code (the claim-side notion used to
state the retry-classification property). -/
def containsAPIErrorWithStatus (code : Nat) : GoError → Bool
  | .apiError _ _ c _ => c == code
  | .wrapSkipRetry e => containsAPIErrorWithStatus code e
  | .wrapped _ e => containsAPIErrorWithStatus code e
  | _ => false

/-- isMarkedSkipRetry models `errors.Is(err, asynq.SkipRetry)`: an error is
classified non-retryable when its unwrap chain reaches the SkipRetry
sentinel. -/
def isMarkedSkipRetry : GoError → Bool
  | .skipRetrySentinel => true
  | .wrapSkipRetry _ => true
  | .wrapped _ e => isMarkedSkipRetry e
  | _ => false

/-- skipHTTPCodes is the fixed denylist of HTTP status codes for which a
remote API error suppresses task retry (tasks.go, MaybeSkipRetry). -/
def skipHTTPCodes : List Nat := [500]

/-- MaybeSkipRetry embeds tasks.go's MaybeSkipRetry: if the error wraps an
APIError whose status code is in skipHTTPCodes, the error is wrapped
together with asynq.SkipRetry; otherwise it is returned unchanged. -/
def MaybeSkipRetry (err : GoError) : GoError :=
  match errorsAsAPIErrorStatus err with
  | some code => if code ∈ skipHTTPCodes then .wrapSkipRetry err else err
  | none => err

/-- Payload embeds the tasks.go Payload struct: the SQL query, the OCM
component name and the OCM component version. -/
structure Payload where
  query : String
  componentName : String
  componentVersion : String
deriving DecidableEq, Repr

/-- TaskPayload models the raw asynq task payload as seen by
DecodePayload: either nil data, data that fails to unmarshal, or data that
unmarshals into a Payload value. -/
inductive TaskPayload where
  | empty
  | malformed (msg : String)
  | ok (p : Payload)
deriving DecidableEq, Repr

/-- DecodePayload embeds tasks.go's DecodePayload: nil data yields
ErrNoPayload, an unmarshal failure propagates, an empty query yields
ErrNoQuery and an empty component name yields ErrNoComponentName. -/
def DecodePayload : TaskPayload → Except GoError Payload
  | .empty => .error .errNoPayload
  | .malformed m => .error (.unmarshalFailure m)
  | .ok p =>
      if p.query = "" then .error .errNoQuery
      else if p.componentName = "" then .error .errNoComponentName
      else .ok p

/-! ## API data types (pkg/odg/api/types/types.go)

Maps of Go type `map[string]string` are embedded as association lists in
the literal insertion order of the source; time values (time.Time,
civil.Date) are embedded as opaque naturals since no claim inspects them.
-/

/-- LocalArtefactID embeds the LocalArtefactID struct: artefact name, type,
version and the extra-discriminator map ArtefactExtraID. -/
structure LocalArtefactID where
  artefactName : String
  artefactType : String
  artefactVersion : String
  artefactExtraID : List (String × String)
deriving DecidableEq, Repr

/-- ComponentArtefactID embeds the ComponentArtefactID struct. -/
structure ComponentArtefactID where
  componentName : String
  componentVersion : String
  artefact : LocalArtefactID
  artefactKind : String
deriving DecidableEq, Repr

/-- OrphanVirtualMachineAWS embeds the AWS row shape from models.go. -/
structure OrphanVirtualMachineAWS where
  name : String
  arch : String
  instanceID : String
  instanceType : String
  state : String
  vpcID : String
  vpcName : String
  regionName : String
  accountID : String
  subnetID : String
  platform : String
  imageID : String
  launchTime : Nat
deriving DecidableEq, Repr

/-- OrphanVirtualMachineGCP embeds the GCP VM row shape from models.go
(InstanceID is a uint64 in Go, embedded as Nat). -/
structure OrphanVirtualMachineGCP where
  name : String
  hostname : String
  instanceID : Nat
  projectID : String
  region : String
  zone : String
  cpuPlatform : String
  status : String
  statusMessage : String
  creationTimestamp : String
  description : String
  lastStartTimestamp : String
  lastStopTimestamp : String
  lastSuspendTimestamp : String
  machineType : String
  gkeClusterName : String
  gkePoolName : String
deriving DecidableEq, Repr

/-- OrphanVirtualMachineAzure embeds the Azure row shape from models.go. -/
structure OrphanVirtualMachineAzure where
  name : String
  subscriptionID : String
  resourceGroup : String
  location : String
  provisioningState : String
  virtualMachineCreatedAt : Nat
  virtualMachineSize : String
  virtualMachineAgentVersion : String
  powerState : String
  hyperVGeneration : String
deriving DecidableEq, Repr

/-- OrphanPublicAddressGCP embeds the GCP public IP address row shape from
models.go (net.IP embedded as String). -/
structure OrphanPublicAddressGCP where
  ruleID : Nat
  projectID : String
  name : String
  ipAddress : String
  ipProtocol : String
  ipVersion : String
  allPorts : Bool
  allowGlobalAccess : Bool
  backendService : String
  creationTimestamp : String
  description : String
  loadBalancingScheme : String
  network : String
  networkTier : String
  portRange : String
  region : String
  serviceLabel : String
  serviceName : String
  subnetwork : String
  target : String
deriving DecidableEq, Repr

/-- OrphanVirtualMachineOpenStack embeds the OpenStack server row shape
from models.go. -/
structure OrphanVirtualMachineOpenStack where
  serverID : String
  name : String
  projectID : String
  projectName : String
  domain : String
  region : String
  userID : String
  availabilityZone : String
  status : String
  imageID : String
  serverCreatedAt : String
  serverUpdatedAt : String
deriving DecidableEq, Repr

/-- FindingAttributes models the Go `any`-typed Attributes field of a
Finding: nil for the zero value, or the originating orphan resource row. -/
inductive FindingAttributes where
  | nilAttr
  | aws (r : OrphanVirtualMachineAWS)
  | azure (r : OrphanVirtualMachineAzure)
  | gcpVM (r : OrphanVirtualMachineGCP)
  | gcpAddr (r : OrphanPublicAddressGCP)
  | openstack (r : OrphanVirtualMachineOpenStack)
deriving DecidableEq, Repr

/-- Finding embeds the Finding struct from types.go. -/
structure Finding where
  severity : String
  providerName : String
  resourceKind : String
  resourceName : String
  summary : String
  attributes : FindingAttributes
deriving DecidableEq, Repr

/-- Finding.zero is the Go zero value of the Finding struct, used for the
Data field of artefact-scan-info entries which never assign it. -/
def Finding.zero : Finding :=
  { severity := "", providerName := "", resourceKind := "",
    resourceName := "", summary := "", attributes := .nilAttr }

/-- Metadata embeds the Metadata struct from types.go (dtype is the Go
field Type, renamed because `type` is a Lean keyword). -/
structure Metadata where
  datasource : String
  dtype : String
  creationDate : Nat
  lastUpdate : Nat
deriving DecidableEq, Repr

/-- ArtefactMetadata embeds the ArtefactMetadata struct from types.go. -/
structure ArtefactMetadata where
  artefact : ComponentArtefactID
  meta : Metadata
  data : Finding
  discoveryDate : Nat
deriving DecidableEq, Repr

/-- RuntimeArtefactMetadata embeds the runtime artefact metadata returned
by the Delivery Service. -/
structure RuntimeArtefactMetadata where
  name : String
  uid : String
  labels : List (String × String)
  creationTimestamp : Nat
deriving DecidableEq, Repr

/-- RuntimeArtefactSpec embeds the runtime artefact spec returned by the
Delivery Service. -/
structure RuntimeArtefactSpec where
  creationData : Nat
  artefact : ComponentArtefactID
deriving DecidableEq, Repr

/-- RuntimeArtefactResultItem embeds a runtime artefact query result. -/
structure RuntimeArtefactResultItem where
  metadata : RuntimeArtefactMetadata
  spec : RuntimeArtefactSpec
deriving DecidableEq, Repr

/-! ## Remote client (pkg/odg/api/client/client.go)

Each client operation is embedded as a function from a remote environment
(the response the Delivery Service would give to each kind of request) to
its Go results together with the list of HTTP requests actually issued.
Every handler calls each operation at most once per run, so one response
per operation kind fully determines a run. -/

/-- HTTPCall is one HTTP request issued by the client against the remote
Delivery Service, carrying the request data relevant to the claims. -/
inductive HTTPCall where
  | queryArtefactMetadata (datatype : String) (entries : List ComponentArtefactID)
  | deleteArtefactMetadata (entries : List ArtefactMetadata)
  | queryRuntimeArtefacts (labels : List (String × String))
  | deleteRuntimeArtefacts (names : List String)
  | submitArtefactMetadata (entries : List ArtefactMetadata)
  | submitRuntimeArtefact (labels : List (String × String)) (artefacts : List ComponentArtefactID)
deriving DecidableEq, Repr

/-- Effect is one observable step of a handler run: a database query, an
HTTP request against the remote store, or a metric gauge update keyed by
task name and metric name with a value and (provider, resource kind)
label pair. -/
inductive Effect where
  | dbQuery (query : String)
  | http (c : HTTPCall)
  | metric (task : String) (name : String) (value : Nat)
      (providerName : String) (resourceKind : String)
deriving DecidableEq, Repr

/-- RemoteEnv fixes the Delivery Service's response to each operation kind
for one run: query operations answer with a result or an error, mutating
operations answer with an optional error. -/
structure RemoteEnv where
  queryArtefactMetadataR : Except GoError (List ArtefactMetadata)
  deleteArtefactMetadataR : Option GoError
  queryRuntimeArtefactsR : Except GoError (List RuntimeArtefactResultItem)
  deleteRuntimeArtefactsR : Option GoError
  submitArtefactMetadataR : Option GoError
  submitRuntimeArtefactR : Option GoError

/-- clientQueryArtefactMetadata embeds Client.QueryArtefactMetadata: with
no query entries it returns nil results without issuing a request;
otherwise it issues one POST /artefacts/metadata/query request. -/
def clientQueryArtefactMetadata (env : RemoteEnv) (datatype : String)
    (items : List ComponentArtefactID) :
    Except GoError (List ArtefactMetadata) × List Effect :=
  if items.isEmpty then (.ok [], [])
  else (env.queryArtefactMetadataR, [.http (.queryArtefactMetadata datatype items)])

/-- clientDeleteArtefactMetadata embeds Client.DeleteArtefactMetadata:
with no entries it returns nil without issuing a request; otherwise it
issues one DELETE /artefacts/metadata request. -/
def clientDeleteArtefactMetadata (env : RemoteEnv)
    (items : List ArtefactMetadata) : Option GoError × List Effect :=
  if items.isEmpty then (none, [])
  else (env.deleteArtefactMetadataR, [.http (.deleteArtefactMetadata items)])

/-- clientSubmitArtefactMetadata embeds Client.SubmitArtefactMetadata:
with no entries it returns nil without issuing a request; otherwise it
issues one PUT /artefacts/metadata request. -/
def clientSubmitArtefactMetadata (env : RemoteEnv)
    (items : List ArtefactMetadata) : Option GoError × List Effect :=
  if items.isEmpty then (none, [])
  else (env.submitArtefactMetadataR, [.http (.submitArtefactMetadata items)])

/-- clientQueryRuntimeArtefacts embeds Client.QueryRuntimeArtefacts: it
always issues one GET /service-extensions/runtime-artefacts request with
the given label filters. -/
def clientQueryRuntimeArtefacts (env : RemoteEnv)
    (labels : List (String × String)) :
    Except GoError (List RuntimeArtefactResultItem) × List Effect :=
  (env.queryRuntimeArtefactsR, [.http (.queryRuntimeArtefacts labels)])

/-- clientDeleteRuntimeArtefacts embeds Client.DeleteRuntimeArtefacts: it
issues one DELETE /service-extensions/runtime-artefacts request with the
given names as query parameters, with no special case for an empty name
list. -/
def clientDeleteRuntimeArtefacts (env : RemoteEnv)
    (names : List String) : Option GoError × List Effect :=
  (env.deleteRuntimeArtefactsR, [.http (.deleteRuntimeArtefacts names)])

/-- clientSubmitRuntimeArtefact embeds the labelled Client
SubmitRuntimeArtefact variant called by the handlers.  The client.go under
src carries the unlabelled variant (items only, returning nil without a
request when the item list is empty); the labelled variant the handlers
invoke additionally forwards the label set in the request, per the spec's
SubmitRuntimeArtefacts(labels, [ArtefactIdentity]) boundary operation. -/
def clientSubmitRuntimeArtefact (env : RemoteEnv)
    (labels : List (String × String)) (items : List ComponentArtefactID) :
    Option GoError × List Effect :=
  if items.isEmpty then (none, [])
  else (env.submitRuntimeArtefactR, [.http (.submitRuntimeArtefact labels items)])

/-! ## Task handlers (pkg/odg/tasks)

Each handler takes the raw task payload, the database answer to the
payload query, the remote environment and the wall-clock instant `now`,
and returns the Go error result (none on success) paired with the ordered
effect trace of the run. -/

/-- taskNameAWS is the AWS task name constant. -/
def taskNameAWS : String := "odg:task:report-orphan-vms-aws"

/-- awsExtraID is the extra-discriminator map built for an AWS VM row,
identical at the finding, scan-info and runtime-artefact occurrences in
orphan_vms_aws.go. -/
def awsExtraID (item : OrphanVirtualMachineAWS) : List (String × String) :=
  [("vpc_id", item.vpcID), ("region_name", item.regionName),
   ("account_id", item.accountID)]

/-- awsComponentArtefactID is the ComponentArtefactID built for an AWS VM
row (also the runtime artefact item submitted for the row). -/
def awsComponentArtefactID (p : Payload) (item : OrphanVirtualMachineAWS) :
    ComponentArtefactID :=
  { componentName := p.componentName
    componentVersion := p.componentVersion
    artefact :=
      { artefactName := item.instanceID
        artefactType := "aws/virtual-machine"
        artefactVersion := p.componentVersion
        artefactExtraID := awsExtraID item }
    artefactKind := "runtime" }

/-- awsFindingArtefact is the finding ArtefactMetadata built for an AWS VM
row by HandleReportOrphanVirtualMachinesAWS. -/
def awsFindingArtefact (p : Payload) (now : Nat)
    (item : OrphanVirtualMachineAWS) : ArtefactMetadata :=
  { meta := { datasource := "inventory", dtype := "finding/inventory",
              creationDate := now, lastUpdate := now }
    artefact := awsComponentArtefactID p item
    data := { severity := "HIGH", providerName := "aws",
              resourceKind := "aws/virtual-machine",
              resourceName := item.instanceID,
              summary := "Orphan Virtual Machine",
              attributes := .aws item }
    discoveryDate := now }

/-- awsScanInfoArtefact is the artefact-scan-info ArtefactMetadata built
for an AWS VM row (its Data field keeps the Go zero value). -/
def awsScanInfoArtefact (p : Payload) (now : Nat)
    (item : OrphanVirtualMachineAWS) : ArtefactMetadata :=
  { meta := { datasource := "inventory", dtype := "meta/artefact_scan_info",
              creationDate := now, lastUpdate := now }
    artefact := awsComponentArtefactID p item
    data := Finding.zero
    discoveryDate := now }

/-- awsBuildArtefacts mirrors the AWS handler's loop, appending the
finding entry and then the scan-info entry for each row. -/
def awsBuildArtefacts (p : Payload) (now : Nat) :
    List OrphanVirtualMachineAWS → List ArtefactMetadata
  | [] => []
  | item :: rest =>
      awsFindingArtefact p now item :: awsScanInfoArtefact p now item ::
        awsBuildArtefacts p now rest

/-- awsQuerySelector is the ComponentArtefactID used by the AWS handler to
query existing remote entries for its artefact type. -/
def awsQuerySelector (p : Payload) : ComponentArtefactID :=
  { componentName := p.componentName
    componentVersion := p.componentVersion
    artefactKind := "runtime"
    artefact := { artefactName := "", artefactType := "aws/virtual-machine",
                  artefactVersion := "", artefactExtraID := [] } }

/-- awsLabels is the label set used by the AWS handler both to match old
runtime artefacts for deletion and to submit the new batch. -/
def awsLabels (p : Payload) : List (String × String) :=
  [("created-by", "inventory"), ("resource-kind", "aws/virtual-machine"),
   ("component-name", p.componentName)]

/-- HandleReportOrphanVirtualMachinesAWS embeds the AWS VM handler from
orphan_vms_aws.go: decode payload (SkipRetry on failure), fetch rows, emit
the discovered-resources gauge, build findings plus scan-info plus runtime
artefacts, query and delete old metadata entries, query and delete old
runtime artefacts by label, submit the new metadata, submit the new
runtime artefacts, and finally emit the reported-resources gauge. -/
def HandleReportOrphanVirtualMachinesAWS (t : TaskPayload)
    (db : Except GoError (List OrphanVirtualMachineAWS))
    (env : RemoteEnv) (now : Nat) : Option GoError × List Effect :=
  match DecodePayload t with
  | .error e => (some (.wrapSkipRetry e), [])
  | .ok p =>
    match db with
    | .error e => (some e, [.dbQuery p.query])
    | .ok items =>
      let tr1 : List Effect :=
        [.dbQuery p.query,
         .metric taskNameAWS "discovered_resources" items.length
           "aws" "aws/virtual-machine"]
      let artefacts := awsBuildArtefacts p now items
      let runtimeArtefacts := items.map (awsComponentArtefactID p)
      let q := clientQueryArtefactMetadata env "finding/inventory" [awsQuerySelector p]
      let tr2 := tr1 ++ q.2
      match q.1 with
      | .error e => (some (MaybeSkipRetry e), tr2)
      | .ok oldEntries =>
        let d := clientDeleteArtefactMetadata env oldEntries
        let tr3 := tr2 ++ d.2
        match d.1 with
        | some e => (some (MaybeSkipRetry e), tr3)
        | none =>
          let qra := clientQueryRuntimeArtefacts env (awsLabels p)
          let tr4 := tr3 ++ qra.2
          match qra.1 with
          | .error e => (some (MaybeSkipRetry e), tr4)
          | .ok oldRuntimeArtefacts =>
            let names := oldRuntimeArtefacts.map (fun ra => ra.metadata.name)
            let dra := clientDeleteRuntimeArtefacts env names
            let tr5 := tr4 ++ dra.2
            match dra.1 with
            | some e => (some (MaybeSkipRetry e), tr5)
            | none =>
              let s := clientSubmitArtefactMetadata env artefacts
              let tr6 := tr5 ++ s.2
              match s.1 with
              | some e => (some (MaybeSkipRetry e), tr6)
              | none =>
                let sra := clientSubmitRuntimeArtefact env (awsLabels p) runtimeArtefacts
                let tr7 := tr6 ++ sra.2
                match sra.1 with
                | some e => (some (MaybeSkipRetry e), tr7)
                | none =>
                  (none,
                   tr7 ++ [.metric taskNameAWS "reported_resources"
                     items.length "aws" "aws/virtual-machine"])

/-- taskNameOpenStack is the OpenStack task name constant. -/
def taskNameOpenStack : String := "odg:task:report-orphan-vms-openstack"

/-- openstackExtraID is the extra-discriminator map built for an OpenStack
server row, identical at the finding, scan-info and runtime-artefact
occurrences in the OpenStack handler. -/
def openstackExtraID (item : OrphanVirtualMachineOpenStack) :
    List (String × String) :=
  [("server_id", item.serverID), ("project_id", item.projectID)]

/-- openstackComponentArtefactID is the ComponentArtefactID built for an
OpenStack server row (also the runtime artefact item submitted for the
row). -/
def openstackComponentArtefactID (p : Payload)
    (item : OrphanVirtualMachineOpenStack) : ComponentArtefactID :=
  { componentName := p.componentName
    componentVersion := p.componentVersion
    artefact :=
      { artefactName := item.name
        artefactType := "openstack/virtual-machine"
        artefactVersion := p.componentVersion
        artefactExtraID := openstackExtraID item }
    artefactKind := "runtime" }

/-- openstackFindingArtefact is the finding ArtefactMetadata built for an
OpenStack server row by HandleReportOrphanVirtualMachinesOpenStack. -/
def openstackFindingArtefact (p : Payload) (now : Nat)
    (item : OrphanVirtualMachineOpenStack) : ArtefactMetadata :=
  { meta := { datasource := "inventory", dtype := "finding/inventory",
              creationDate := now, lastUpdate := now }
    artefact := openstackComponentArtefactID p item
    data := { severity := "HIGH", providerName := "openstack",
              resourceKind := "openstack/virtual-machine",
              resourceName := item.serverID,
              summary := "Orphan Server",
              attributes := .openstack item }
    discoveryDate := now }

/-- openstackScanInfoArtefact is the artefact-scan-info ArtefactMetadata
built for an OpenStack server row (its Data field keeps the Go zero
value). -/
def openstackScanInfoArtefact (p : Payload) (now : Nat)
    (item : OrphanVirtualMachineOpenStack) : ArtefactMetadata :=
  { meta := { datasource := "inventory", dtype := "meta/artefact_scan_info",
              creationDate := now, lastUpdate := now }
    artefact := openstackComponentArtefactID p item
    data := Finding.zero
    discoveryDate := now }

/-- openstackBuildArtefacts mirrors the OpenStack handler's loop,
appending the finding entry and then the scan-info entry for each row. -/
def openstackBuildArtefacts (p : Payload) (now : Nat) :
    List OrphanVirtualMachineOpenStack → List ArtefactMetadata
  | [] => []
  | item :: rest =>
      openstackFindingArtefact p now item ::
        openstackScanInfoArtefact p now item ::
          openstackBuildArtefacts p now rest

/-- openstackQuerySelector is the ComponentArtefactID used by the
OpenStack handler to query existing remote entries for its artefact
type. -/
def openstackQuerySelector (p : Payload) : ComponentArtefactID :=
  { componentName := p.componentName
    componentVersion := p.componentVersion
    artefactKind := "runtime"
    artefact := { artefactName := "",
                  artefactType := "openstack/virtual-machine",
                  artefactVersion := "", artefactExtraID := [] } }

/-- openstackLabels is the label set used by the OpenStack handler both to
match old runtime artefacts for deletion and to submit the new batch. -/
def openstackLabels (p : Payload) : List (String × String) :=
  [("created-by", "inventory"),
   ("resource-kind", "openstack/virtual-machine"),
   ("component-name", p.componentName)]

/-- HandleReportOrphanVirtualMachinesOpenStack embeds the OpenStack server
handler (the live second document of metrics.go): decode payload
(SkipRetry on failure), fetch rows, emit the discovered-resources gauge,
build findings plus scan-info plus runtime artefacts, query and delete old
metadata entries, query and delete old runtime artefacts by label, submit
the new metadata, submit the new runtime artefacts, and finally emit the
reported-resources gauge. -/
def HandleReportOrphanVirtualMachinesOpenStack (t : TaskPayload)
    (db : Except GoError (List OrphanVirtualMachineOpenStack))
    (env : RemoteEnv) (now : Nat) : Option GoError × List Effect :=
  match DecodePayload t with
  | .error e => (some (.wrapSkipRetry e), [])
  | .ok p =>
    match db with
    | .error e => (some e, [.dbQuery p.query])
    | .ok items =>
      let tr1 : List Effect :=
        [.dbQuery p.query,
         .metric taskNameOpenStack "discovered_resources" items.length
           "openstack" "openstack/virtual-machine"]
      let artefacts := openstackBuildArtefacts p now items
      let runtimeArtefacts := items.map (openstackComponentArtefactID p)
      let q := clientQueryArtefactMetadata env "finding/inventory"
        [openstackQuerySelector p]
      let tr2 := tr1 ++ q.2
      match q.1 with
      | .error e => (some (MaybeSkipRetry e), tr2)
      | .ok oldEntries =>
        let d := clientDeleteArtefactMetadata env oldEntries
        let tr3 := tr2 ++ d.2
        match d.1 with
        | some e => (some (MaybeSkipRetry e), tr3)
        | none =>
          let qra := clientQueryRuntimeArtefacts env (openstackLabels p)
          let tr4 := tr3 ++ qra.2
          match qra.1 with
          | .error e => (some (MaybeSkipRetry e), tr4)
          | .ok oldRuntimeArtefacts =>
            let names := oldRuntimeArtefacts.map (fun ra => ra.metadata.name)
            let dra := clientDeleteRuntimeArtefacts env names
            let tr5 := tr4 ++ dra.2
            match dra.1 with
            | some e => (some (MaybeSkipRetry e), tr5)
            | none =>
              let s := clientSubmitArtefactMetadata env artefacts
              let tr6 := tr5 ++ s.2
              match s.1 with
              | some e => (some (MaybeSkipRetry e), tr6)
              | none =>
                let sra := clientSubmitRuntimeArtefact env
                  (openstackLabels p) runtimeArtefacts
                let tr7 := tr6 ++ sra.2
                match sra.1 with
                | some e => (some (MaybeSkipRetry e), tr7)
                | none =>
                  (none,
                   tr7 ++ [.metric taskNameOpenStack "reported_resources"
                     items.length "openstack" "openstack/virtual-machine"])

/-- azureExtraID is the extra-discriminator map built for an Azure VM
row. -/
def azureExtraID (item : OrphanVirtualMachineAzure) : List (String × String) :=
  [("subscription_id", item.subscriptionID),
   ("resource_group", item.resourceGroup), ("location", item.location)]

/-- azureFindingArtefact is the finding ArtefactMetadata built for an
Azure VM row by HandleReportOrphanVirtualMachinesAzure. -/
def azureFindingArtefact (p : Payload) (now : Nat)
    (item : OrphanVirtualMachineAzure) : ArtefactMetadata :=
  { meta := { datasource := "inventory", dtype := "finding/inventory",
              creationDate := now, lastUpdate := now }
    artefact :=
      { componentName := p.componentName
        componentVersion := p.componentVersion
        artefact :=
          { artefactName := item.name
            artefactType := "az/virtual-machine"
            artefactVersion := p.componentVersion
            artefactExtraID := azureExtraID item }
        artefactKind := "runtime" }
    data := { severity := "HIGH", providerName := "azure",
              resourceKind := "az/virtual-machine",
              resourceName := item.name,
              summary := "Orphan Virtual Machine",
              attributes := .azure item }
    discoveryDate := now }

/-- azureQuerySelector is the ComponentArtefactID used by the Azure
handler to query existing remote entries for its artefact type. -/
def azureQuerySelector (p : Payload) : ComponentArtefactID :=
  { componentName := p.componentName
    componentVersion := p.componentVersion
    artefactKind := "runtime"
    artefact := { artefactName := "", artefactType := "az/virtual-machine",
                  artefactVersion := "", artefactExtraID := [] } }

/-- HandleReportOrphanVirtualMachinesAzure embeds the Azure VM handler
from orphan_vms_azure.go: decode payload, fetch rows, build findings,
query and delete old metadata entries, return early when there is nothing
to submit, and otherwise submit the new metadata.  It emits no metrics
and tracks no runtime artefacts. -/
def HandleReportOrphanVirtualMachinesAzure (t : TaskPayload)
    (db : Except GoError (List OrphanVirtualMachineAzure))
    (env : RemoteEnv) (now : Nat) : Option GoError × List Effect :=
  match DecodePayload t with
  | .error e => (some (.wrapSkipRetry e), [])
  | .ok p =>
    match db with
    | .error e => (some e, [.dbQuery p.query])
    | .ok items =>
      let tr1 : List Effect := [.dbQuery p.query]
      let artefacts := items.map (azureFindingArtefact p now)
      let q := clientQueryArtefactMetadata env "finding/inventory" [azureQuerySelector p]
      let tr2 := tr1 ++ q.2
      match q.1 with
      | .error e => (some (MaybeSkipRetry e), tr2)
      | .ok oldEntries =>
        let d := clientDeleteArtefactMetadata env oldEntries
        let tr3 := tr2 ++ d.2
        match d.1 with
        | some e => (some (MaybeSkipRetry e), tr3)
        | none =>
          if artefacts.isEmpty then (none, tr3)
          else
            let s := clientSubmitArtefactMetadata env artefacts
            let tr4 := tr3 ++ s.2
            match s.1 with
            | some e => (some (MaybeSkipRetry e), tr4)
            | none => (none, tr4)

/-- gcpExtraID is the extra-discriminator map built for a GCP VM row
(InstanceID is rendered in decimal via strconv.FormatUint). -/
def gcpExtraID (item : OrphanVirtualMachineGCP) : List (String × String) :=
  [("instance_id", toString item.instanceID), ("project_id", item.projectID)]

/-- gcpComponentArtefactID is the ComponentArtefactID built for a GCP VM
row (also the runtime artefact item submitted for the row). -/
def gcpComponentArtefactID (p : Payload) (item : OrphanVirtualMachineGCP) :
    ComponentArtefactID :=
  { componentName := p.componentName
    componentVersion := p.componentVersion
    artefact :=
      { artefactName := item.name
        artefactType := "gcp/virtual-machine"
        artefactVersion := p.componentVersion
        artefactExtraID := gcpExtraID item }
    artefactKind := "runtime" }

/-- gcpFindingArtefact is the finding ArtefactMetadata built for a GCP VM
row by HandleReportOrphanVirtualMachinesGCP. -/
def gcpFindingArtefact (p : Payload) (now : Nat)
    (item : OrphanVirtualMachineGCP) : ArtefactMetadata :=
  { meta := { datasource := "inventory", dtype := "finding/inventory",
              creationDate := now, lastUpdate := now }
    artefact := gcpComponentArtefactID p item
    data := { severity := "HIGH", providerName := "gcp",
              resourceKind := "gcp/virtual-machine",
              resourceName := toString item.instanceID,
              summary := "Orphan Virtual Machine",
              attributes := .gcpVM item }
    discoveryDate := now }

/-- gcpScanInfoArtefact is the artefact-scan-info ArtefactMetadata built
for a GCP VM row. -/
def gcpScanInfoArtefact (p : Payload) (now : Nat)
    (item : OrphanVirtualMachineGCP) : ArtefactMetadata :=
  { meta := { datasource := "inventory", dtype := "meta/artefact_scan_info",
              creationDate := now, lastUpdate := now }
    artefact := gcpComponentArtefactID p item
    data := Finding.zero
    discoveryDate := now }

/-- gcpBuildArtefacts mirrors the GCP VM handler's loop, appending the
finding entry and then the scan-info entry for each row. -/
def gcpBuildArtefacts (p : Payload) (now : Nat) :
    List OrphanVirtualMachineGCP → List ArtefactMetadata
  | [] => []
  | item :: rest =>
      gcpFindingArtefact p now item :: gcpScanInfoArtefact p now item ::
        gcpBuildArtefacts p now rest

/-- gcpQuerySelector is the ComponentArtefactID used by the GCP VM handler
to query existing remote entries for its artefact type. -/
def gcpQuerySelector (p : Payload) : ComponentArtefactID :=
  { componentName := p.componentName
    componentVersion := p.componentVersion
    artefactKind := "runtime"
    artefact := { artefactName := "", artefactType := "gcp/virtual-machine",
                  artefactVersion := "", artefactExtraID := [] } }

/-- gcpLabels is the label set used by the GCP VM handler both to match
old runtime artefacts for deletion and to submit the new batch; unlike the
AWS handler it carries no component-name label. -/
def gcpLabels : List (String × String) :=
  [("created-by", "inventory"), ("resource-kind", "gcp/virtual-machine")]

/-- HandleReportOrphanVirtualMachinesGCP embeds the GCP VM handler variant
that tracks runtime artefacts (orphan_vms_azure.go, second revision):
decode payload, fetch rows, build findings plus scan-info plus runtime
artefacts, query and delete old metadata entries, query and delete old
runtime artefacts by the two-element gcpLabels set, submit the new
metadata and submit the new runtime artefacts.  It emits no metrics. -/
def HandleReportOrphanVirtualMachinesGCP (t : TaskPayload)
    (db : Except GoError (List OrphanVirtualMachineGCP))
    (env : RemoteEnv) (now : Nat) : Option GoError × List Effect :=
  match DecodePayload t with
  | .error e => (some (.wrapSkipRetry e), [])
  | .ok p =>
    match db with
    | .error e => (some e, [.dbQuery p.query])
    | .ok items =>
      let tr1 : List Effect := [.dbQuery p.query]
      let artefacts := gcpBuildArtefacts p now items
      let runtimeArtefacts := items.map (gcpComponentArtefactID p)
      let q := clientQueryArtefactMetadata env "finding/inventory" [gcpQuerySelector p]
      let tr2 := tr1 ++ q.2
      match q.1 with
      | .error e => (some (MaybeSkipRetry e), tr2)
      | .ok oldEntries =>
        let d := clientDeleteArtefactMetadata env oldEntries
        let tr3 := tr2 ++ d.2
        match d.1 with
        | some e => (some (MaybeSkipRetry e), tr3)
        | none =>
          let qra := clientQueryRuntimeArtefacts env gcpLabels
          let tr4 := tr3 ++ qra.2
          match qra.1 with
          | .error e => (some (MaybeSkipRetry e), tr4)
          | .ok oldRuntimeArtefacts =>
            let names := oldRuntimeArtefacts.map (fun ra => ra.metadata.name)
            let dra := clientDeleteRuntimeArtefacts env names
            let tr5 := tr4 ++ dra.2
            match dra.1 with
            | some e => (some (MaybeSkipRetry e), tr5)
            | none =>
              let s := clientSubmitArtefactMetadata env artefacts
              let tr6 := tr5 ++ s.2
              match s.1 with
              | some e => (some (MaybeSkipRetry e), tr6)
              | none =>
                let sra := clientSubmitRuntimeArtefact env gcpLabels runtimeArtefacts
                let tr7 := tr6 ++ sra.2
                match sra.1 with
                | some e => (some (MaybeSkipRetry e), tr7)
                | none => (none, tr7)

/-- gcpAddrExtraID is the extra-discriminator map built for a GCP public
IP address row (forwarding_rule carries the row's Name field). -/
def gcpAddrExtraID (item : OrphanPublicAddressGCP) : List (String × String) :=
  [("project_id", item.projectID), ("forwarding_rule", item.name)]

/-- gcpAddrFindingArtefact is the finding ArtefactMetadata built for a GCP
public IP address row by HandleReportOrphanPublicAddressGCP; the resource
name is the `project:name` composition. -/
def gcpAddrFindingArtefact (p : Payload) (now : Nat)
    (item : OrphanPublicAddressGCP) : ArtefactMetadata :=
  { meta := { datasource := "inventory", dtype := "finding/inventory",
              creationDate := now, lastUpdate := now }
    artefact :=
      { componentName := p.componentName
        componentVersion := p.componentVersion
        artefact :=
          { artefactName := item.name
            artefactType := "gcp/public-ip-address"
            artefactVersion := p.componentVersion
            artefactExtraID := gcpAddrExtraID item }
        artefactKind := "runtime" }
    data := { severity := "HIGH", providerName := "gcp",
              resourceKind := "gcp/public-ip-address",
              resourceName := item.projectID ++ ":" ++ item.name,
              summary := "Orphan Public IP Address",
              attributes := .gcpAddr item }
    discoveryDate := now }

/-- gcpAddrQuerySelector is the ComponentArtefactID used by the GCP public
IP address handler to query existing remote entries. -/
def gcpAddrQuerySelector (p : Payload) : ComponentArtefactID :=
  { componentName := p.componentName
    componentVersion := p.componentVersion
    artefactKind := "runtime"
    artefact := { artefactName := "", artefactType := "gcp/public-ip-address",
                  artefactVersion := "", artefactExtraID := [] } }

/-- HandleReportOrphanPublicAddressGCP embeds the GCP public IP address
handler from orphan_public_ip_gcp.go: decode payload, fetch rows, build
findings, query and delete old metadata entries, return early when there
is nothing to submit, and otherwise submit the new metadata.  It emits no
metrics and tracks no runtime artefacts. -/
def HandleReportOrphanPublicAddressGCP (t : TaskPayload)
    (db : Except GoError (List OrphanPublicAddressGCP))
    (env : RemoteEnv) (now : Nat) : Option GoError × List Effect :=
  match DecodePayload t with
  | .error e => (some (.wrapSkipRetry e), [])
  | .ok p =>
    match db with
    | .error e => (some e, [.dbQuery p.query])
    | .ok items =>
      let tr1 : List Effect := [.dbQuery p.query]
      let artefacts := items.map (gcpAddrFindingArtefact p now)
      let q := clientQueryArtefactMetadata env "finding/inventory" [gcpAddrQuerySelector p]
      let tr2 := tr1 ++ q.2
      match q.1 with
      | .error e => (some (MaybeSkipRetry e), tr2)
      | .ok oldEntries =>
        let d := clientDeleteArtefactMetadata env oldEntries
        let tr3 := tr2 ++ d.2
        match d.1 with
        | some e => (some (MaybeSkipRetry e), tr3)
        | none =>
          if artefacts.isEmpty then (none, tr3)
          else
            let s := clientSubmitArtefactMetadata env artefacts
            let tr4 := tr3 ++ s.2
            match s.1 with
            | some e => (some (MaybeSkipRetry e), tr4)
            | none => (none, tr4)

/-! ## Shared observation helpers and fixtures -/

/-- isMetricEffect recognises a metric gauge update in an effect trace. -/
def isMetricEffect : Effect → Bool
  | .metric _ _ _ _ _ => true
  | _ => false

/-- isSubmitFindingsEffect recognises a PUT /artefacts/metadata request
(the submit-findings remote operation) in an effect trace. -/
def isSubmitFindingsEffect : Effect → Bool
  | .http (.submitArtefactMetadata _) => true
  | _ => false

/-- isMutatingEffect recognises a remote-mutating HTTP request: a delete
of artefact metadata, a delete of runtime artefacts, a submit of findings
or a submit of runtime artefacts. -/
def isMutatingEffect : Effect → Bool
  | .http (.deleteArtefactMetadata _) => true
  | .http (.deleteRuntimeArtefacts _) => true
  | .http (.submitArtefactMetadata _) => true
  | .http (.submitRuntimeArtefact _ _) => true
  | _ => false

/-- submitFindingsSizes lists, in order, the number of entries carried by
each submit-findings request of a trace. -/
def submitFindingsSizes (tr : List Effect) : List Nat :=
  tr.filterMap fun ef =>
    match ef with
    | .http (.submitArtefactMetadata es) => some es.length
    | _ => none

/-- isFindingEntry recognises an ArtefactMetadata entry whose datatype is
finding/inventory (as opposed to the scan-info meta entries). -/
def isFindingEntry (a : ArtefactMetadata) : Bool :=
  a.meta.dtype == "finding/inventory"

/-- envAllOk is a remote environment in which every operation succeeds and
both query operations answer with an empty result (a first run against an
empty remote store). -/
def envAllOk : RemoteEnv :=
  { queryArtefactMetadataR := .ok []
    deleteArtefactMetadataR := none
    queryRuntimeArtefactsR := .ok []
    deleteRuntimeArtefactsR := none
    submitArtefactMetadataR := none
    submitRuntimeArtefactR := none }

/-! ## Claim theorems -/

/-- Helper relating the claim-side APIError search to the errors.As walk
used by MaybeSkipRetry. -/
theorem containsAPIErrorWithStatus_eq (c : Nat) (e : GoError) :
    containsAPIErrorWithStatus c e = (errorsAsAPIErrorStatus e == some c) := by
  induction e <;>
    simp [containsAPIErrorWithStatus, errorsAsAPIErrorStatus, *]

/-- C1: an error passed through MaybeSkipRetry is wrapped with SkipRetry
exactly when it is, or wraps, an APIError whose status code is 500; any
other error is returned unchanged, so its retry classification (SkipRetry
marking) is unchanged. -/
theorem maybeSkipRetry_classifies_500 (e : GoError) :
    MaybeSkipRetry e =
      (if containsAPIErrorWithStatus 500 e then GoError.wrapSkipRetry e else e) ∧
    isMarkedSkipRetry (MaybeSkipRetry e) =
      (containsAPIErrorWithStatus 500 e || isMarkedSkipRetry e) := by
  have h := containsAPIErrorWithStatus_eq 500 e
  unfold MaybeSkipRetry
  cases hs : errorsAsAPIErrorStatus e with
  | none =>
      simp [hs] at h
      simp [h]
  | some c =>
      simp [hs] at h
      by_cases hc : c = 500
      · subst hc
        simp at h
        simp [h, skipHTTPCodes, isMarkedSkipRetry]
      · have hmem : ¬(c ∈ skipHTTPCodes) := by
          simp [skipHTTPCodes]; omega
        simp [hmem, h, hc]

/-- C6: the extra-discriminator map of every mapped artefact is exactly
the fixed per-kind projection — AWS VM: vpc_id, region_name, account_id;
Azure VM: subscription_id, resource_group, location; GCP VM: instance_id,
project_id; GCP public address: project_id, forwarding_rule — with values
taken from the corresponding row fields, and the scan-info and
runtime-artefact records of the kinds that carry them use the same map. -/
theorem extraID_fixed_projection (p : Payload) (now : Nat)
    (a : OrphanVirtualMachineAWS) (z : OrphanVirtualMachineAzure)
    (g : OrphanVirtualMachineGCP) (ip : OrphanPublicAddressGCP) :
    (awsFindingArtefact p now a).artefact.artefact.artefactExtraID =
      [("vpc_id", a.vpcID), ("region_name", a.regionName),
       ("account_id", a.accountID)] ∧
    (awsScanInfoArtefact p now a).artefact.artefact.artefactExtraID =
      awsExtraID a ∧
    (awsComponentArtefactID p a).artefact.artefactExtraID = awsExtraID a ∧
    (azureFindingArtefact p now z).artefact.artefact.artefactExtraID =
      [("subscription_id", z.subscriptionID),
       ("resource_group", z.resourceGroup), ("location", z.location)] ∧
    (gcpFindingArtefact p now g).artefact.artefact.artefactExtraID =
      [("instance_id", toString g.instanceID), ("project_id", g.projectID)] ∧
    (gcpScanInfoArtefact p now g).artefact.artefact.artefactExtraID =
      gcpExtraID g ∧
    (gcpComponentArtefactID p g).artefact.artefactExtraID = gcpExtraID g ∧
    (gcpAddrFindingArtefact p now ip).artefact.artefact.artefactExtraID =
      [("project_id", ip.projectID), ("forwarding_rule", ip.name)] :=
  ⟨rfl, rfl, rfl, rfl, rfl, rfl, rfl, rfl⟩

/-- C10: DeleteRuntimeArtefacts called with an empty name list still
issues the HTTP DELETE request against the runtime-artefacts endpoint
(with no name parameters), and its outcome is whatever the remote answers,
whereas DeleteArtefactMetadata and SubmitArtefactMetadata called with an
empty item list return success without issuing any request. -/
theorem client_empty_list_behaviour (env : RemoteEnv) :
    clientDeleteRuntimeArtefacts env [] =
      (env.deleteRuntimeArtefactsR,
       [Effect.http (.deleteRuntimeArtefacts [])]) ∧
    clientDeleteArtefactMetadata env [] = (none, []) ∧
    clientSubmitArtefactMetadata env [] = (none, []) := by
  refine ⟨rfl, ?_, ?_⟩ <;>
    simp [clientDeleteArtefactMetadata, clientSubmitArtefactMetadata]

/-- C4: whenever payload decoding fails — nil payload, empty query or
empty component name — every handler fails immediately with that
validation error wrapped as non-retryable (SkipRetry) and performs zero
database queries and zero remote calls (an empty effect trace); the three
invalid shapes decode to ErrNoPayload, ErrNoQuery and ErrNoComponentName
respectively. -/
theorem validation_error_short_circuit
    (dbA : Except GoError (List OrphanVirtualMachineAWS))
    (dbZ : Except GoError (List OrphanVirtualMachineAzure))
    (dbG : Except GoError (List OrphanVirtualMachineGCP))
    (dbI : Except GoError (List OrphanPublicAddressGCP))
    (env : RemoteEnv) (now : Nat) (t : TaskPayload) (e : GoError)
    (hd : DecodePayload t = .error e) :
    HandleReportOrphanVirtualMachinesAWS t dbA env now =
      (some (.wrapSkipRetry e), []) ∧
    HandleReportOrphanVirtualMachinesAzure t dbZ env now =
      (some (.wrapSkipRetry e), []) ∧
    HandleReportOrphanVirtualMachinesGCP t dbG env now =
      (some (.wrapSkipRetry e), []) ∧
    HandleReportOrphanPublicAddressGCP t dbI env now =
      (some (.wrapSkipRetry e), []) ∧
    isMarkedSkipRetry (GoError.wrapSkipRetry e) = true ∧
    DecodePayload .empty = .error .errNoPayload ∧
    (∀ p : Payload, p.query = "" →
      DecodePayload (.ok p) = .error .errNoQuery) ∧
    (∀ p : Payload, p.query ≠ "" → p.componentName = "" →
      DecodePayload (.ok p) = .error .errNoComponentName) := by
  refine ⟨?_, ?_, ?_, ?_, rfl, rfl, ?_, ?_⟩
  · simp [HandleReportOrphanVirtualMachinesAWS, hd]
  · simp [HandleReportOrphanVirtualMachinesAzure, hd]
  · simp [HandleReportOrphanVirtualMachinesGCP, hd]
  · simp [HandleReportOrphanPublicAddressGCP, hd]
  · intro p hp
    simp [DecodePayload, hp]
  · intro p hp hc
    simp [DecodePayload, hp, hc]

/-- Witness for C4 at the concrete nil-payload task with an all-ok remote
environment. -/
theorem validation_error_short_circuit_witness :
    DecodePayload .empty = .error .errNoPayload ∧
    HandleReportOrphanVirtualMachinesAWS .empty (.ok []) envAllOk 0 =
      (some (.wrapSkipRetry .errNoPayload), []) :=
  ⟨rfl,
   (validation_error_short_circuit (.ok []) (.ok []) (.ok []) (.ok [])
     envAllOk 0 .empty .errNoPayload rfl).1⟩

/-- C3: when the database query returns zero rows, no handler ever issues
a submit-findings request against the remote store (whatever the remote
answers), and the run terminates successfully once the steps that do run
succeed — for the AWS and GCP VM handlers the query/delete of old
metadata and old runtime artefacts, for the Azure and GCP address
handlers the query/delete of old metadata, after which they return early
without submitting. -/
theorem empty_rows_no_submit (p : Payload) (hq : p.query ≠ "")
    (hc : p.componentName ≠ "") (env : RemoteEnv) (now : Nat) :
    (HandleReportOrphanVirtualMachinesAWS (.ok p) (.ok []) env now).2.countP
        isSubmitFindingsEffect = 0 ∧
    (HandleReportOrphanVirtualMachinesAzure (.ok p) (.ok []) env now).2.countP
        isSubmitFindingsEffect = 0 ∧
    (HandleReportOrphanVirtualMachinesGCP (.ok p) (.ok []) env now).2.countP
        isSubmitFindingsEffect = 0 ∧
    (HandleReportOrphanPublicAddressGCP (.ok p) (.ok []) env now).2.countP
        isSubmitFindingsEffect = 0 ∧
    (∀ old oldRA, env.queryArtefactMetadataR = .ok old →
       env.deleteArtefactMetadataR = none →
       env.queryRuntimeArtefactsR = .ok oldRA →
       env.deleteRuntimeArtefactsR = none →
       (HandleReportOrphanVirtualMachinesAWS (.ok p) (.ok []) env now).1 = none ∧
       (HandleReportOrphanVirtualMachinesGCP (.ok p) (.ok []) env now).1 = none) ∧
    (∀ old, env.queryArtefactMetadataR = .ok old →
       env.deleteArtefactMetadataR = none →
       (HandleReportOrphanVirtualMachinesAzure (.ok p) (.ok []) env now).1 = none ∧
       (HandleReportOrphanPublicAddressGCP (.ok p) (.ok []) env now).1 = none) := by
  obtain ⟨qR, dR, qraR, draR, sR, sraR⟩ := env
  refine ⟨?_, ?_, ?_, ?_, ?_, ?_⟩ <;>
    simp [HandleReportOrphanVirtualMachinesAWS,
      HandleReportOrphanVirtualMachinesAzure,
      HandleReportOrphanVirtualMachinesGCP,
      HandleReportOrphanPublicAddressGCP, DecodePayload,
      clientQueryArtefactMetadata, clientDeleteArtefactMetadata,
      clientQueryRuntimeArtefacts, clientDeleteRuntimeArtefacts,
      clientSubmitArtefactMetadata, clientSubmitRuntimeArtefact,
      awsBuildArtefacts, gcpBuildArtefacts, hq, hc] <;>
    (repeat' split) <;>
    simp_all [isSubmitFindingsEffect]

/-- payload1 is a concrete valid payload fixture. -/
def payload1 : Payload :=
  { query := "SELECT 1", componentName := "c", componentVersion := "v1" }

/-- Witness for C3 at the concrete valid payload and all-ok remote
environment. -/
theorem empty_rows_no_submit_witness :
    payload1.query ≠ "" ∧ payload1.componentName ≠ "" ∧
    (HandleReportOrphanVirtualMachinesAWS (.ok payload1) (.ok [])
        envAllOk 0).2.countP isSubmitFindingsEffect = 0 :=
  ⟨by decide, by decide,
   (empty_rows_no_submit payload1 (by decide) (by decide) envAllOk 0).1⟩

/-- rowAddr1 is a concrete GCP public IP address row fixture. -/
def rowAddr1 : OrphanPublicAddressGCP :=
  { ruleID := 1, projectID := "p1", name := "fr-1", ipAddress := "1.2.3.4",
    ipProtocol := "TCP", ipVersion := "IPV4", allPorts := false,
    allowGlobalAccess := false, backendService := "", creationTimestamp := "",
    description := "", loadBalancingScheme := "", network := "",
    networkTier := "", portRange := "", region := "", serviceLabel := "",
    serviceName := "", subnetwork := "", target := "" }

/-- Counterexample for C2: the GCP public IP address handler, on a valid
payload whose query returns one row and with every remote operation
succeeding, completes successfully yet emits no metric at all — in
particular no discovered-count gauge — contradicting the claim that every
resource-kind handler sets the discovered-count gauge. -/
theorem discovered_metric_counterexample :
    (HandleReportOrphanPublicAddressGCP (.ok payload1) (.ok [rowAddr1])
        envAllOk 0).2.countP isMetricEffect = 0 ∧
    (HandleReportOrphanPublicAddressGCP (.ok payload1) (.ok [rowAddr1])
        envAllOk 0).1 = none := by
  constructor <;> rfl

/-- Helper: the Azure VM handler emits no metric effect in any run. -/
theorem azure_trace_no_metric (t : TaskPayload)
    (db : Except GoError (List OrphanVirtualMachineAzure))
    (env : RemoteEnv) (now : Nat) :
    (HandleReportOrphanVirtualMachinesAzure t db env now).2.countP
      isMetricEffect = 0 := by
  obtain ⟨qR, dR, qraR, draR, sR, sraR⟩ := env
  simp only [HandleReportOrphanVirtualMachinesAzure,
    clientQueryArtefactMetadata, clientDeleteArtefactMetadata,
    clientSubmitArtefactMetadata]
  (repeat' split) <;>
    simp_all [List.countP_append, List.countP_cons, isMetricEffect]

set_option maxHeartbeats 1000000 in
/-- Helper: the GCP VM handler emits no metric effect in any run. -/
theorem gcpvm_trace_no_metric (t : TaskPayload)
    (db : Except GoError (List OrphanVirtualMachineGCP))
    (env : RemoteEnv) (now : Nat) :
    (HandleReportOrphanVirtualMachinesGCP t db env now).2.countP
      isMetricEffect = 0 := by
  obtain ⟨qR, dR, qraR, draR, sR, sraR⟩ := env
  simp only [HandleReportOrphanVirtualMachinesGCP,
    clientQueryArtefactMetadata, clientDeleteArtefactMetadata,
    clientQueryRuntimeArtefacts, clientDeleteRuntimeArtefacts,
    clientSubmitArtefactMetadata, clientSubmitRuntimeArtefact]
  (repeat' split) <;>
    simp_all [List.countP_append, List.countP_cons, isMetricEffect]

/-- Helper: the GCP public IP address handler emits no metric effect in
any run. -/
theorem gcpaddr_trace_no_metric (t : TaskPayload)
    (db : Except GoError (List OrphanPublicAddressGCP))
    (env : RemoteEnv) (now : Nat) :
    (HandleReportOrphanPublicAddressGCP t db env now).2.countP
      isMetricEffect = 0 := by
  obtain ⟨qR, dR, qraR, draR, sR, sraR⟩ := env
  simp only [HandleReportOrphanPublicAddressGCP,
    clientQueryArtefactMetadata, clientDeleteArtefactMetadata,
    clientSubmitArtefactMetadata]
  (repeat' split) <;>
    simp_all [List.countP_append, List.countP_cons, isMetricEffect]

/-- Helper: for a valid payload and successful fetch, the AWS VM handler's
trace starts with the database query followed by the discovered-resources
gauge set to the row count, before any remote call and regardless of the
remote environment. -/
theorem aws_trace_head (p : Payload) (hq : p.query ≠ "")
    (hc : p.componentName ≠ "") (items : List OrphanVirtualMachineAWS)
    (env : RemoteEnv) (now : Nat) :
    ∃ rest, (HandleReportOrphanVirtualMachinesAWS (.ok p) (.ok items)
        env now).2 =
      Effect.dbQuery p.query ::
        Effect.metric taskNameAWS "discovered_resources" items.length
          "aws" "aws/virtual-machine" :: rest := by
  obtain ⟨qR, dR, qraR, draR, sR, sraR⟩ := env
  simp only [HandleReportOrphanVirtualMachinesAWS, DecodePayload,
    if_neg hq, if_neg hc]
  (repeat' split) <;> exact ⟨_, rfl⟩

/-- Helper: for a valid payload and successful fetch, the OpenStack
server handler's trace starts with the database query followed by the
discovered-resources gauge set to the row count, before any remote call
and regardless of the remote environment. -/
theorem openstack_trace_head (p : Payload) (hq : p.query ≠ "")
    (hc : p.componentName ≠ "") (items : List OrphanVirtualMachineOpenStack)
    (env : RemoteEnv) (now : Nat) :
    ∃ rest, (HandleReportOrphanVirtualMachinesOpenStack (.ok p) (.ok items)
        env now).2 =
      Effect.dbQuery p.query ::
        Effect.metric taskNameOpenStack "discovered_resources" items.length
          "openstack" "openstack/virtual-machine" :: rest := by
  obtain ⟨qR, dR, qraR, draR, sR, sraR⟩ := env
  simp only [HandleReportOrphanVirtualMachinesOpenStack, DecodePayload,
    if_neg hq, if_neg hc]
  (repeat' split) <;> exact ⟨_, rfl⟩

/-- C2 amended: the discovered-count gauge is emitted by the AWS VM and
OpenStack VM handlers, where it is set to the row count immediately after
the database fetch — the first effect after the query, before any remote
call — and regardless of the remote environment; the Azure VM, GCP VM and
GCP public address handlers emit no metric at all. -/
theorem discovered_metric_amended (p : Payload) (hq : p.query ≠ "")
    (hc : p.componentName ≠ "") (itemsA : List OrphanVirtualMachineAWS)
    (itemsO : List OrphanVirtualMachineOpenStack)
    (env envO : RemoteEnv) (now : Nat) :
    (∃ rest, (HandleReportOrphanVirtualMachinesAWS (.ok p) (.ok itemsA)
        env now).2 =
      Effect.dbQuery p.query ::
        Effect.metric taskNameAWS "discovered_resources" itemsA.length
          "aws" "aws/virtual-machine" :: rest) ∧
    (∃ rest, (HandleReportOrphanVirtualMachinesOpenStack (.ok p)
        (.ok itemsO) envO now).2 =
      Effect.dbQuery p.query ::
        Effect.metric taskNameOpenStack "discovered_resources" itemsO.length
          "openstack" "openstack/virtual-machine" :: rest) ∧
    (∀ (t : TaskPayload) (dbZ : Except GoError (List OrphanVirtualMachineAzure))
        (envZ : RemoteEnv) (nowZ : Nat),
      (HandleReportOrphanVirtualMachinesAzure t dbZ envZ nowZ).2.countP
        isMetricEffect = 0) ∧
    (∀ (t : TaskPayload) (dbG : Except GoError (List OrphanVirtualMachineGCP))
        (envG : RemoteEnv) (nowG : Nat),
      (HandleReportOrphanVirtualMachinesGCP t dbG envG nowG).2.countP
        isMetricEffect = 0) ∧
    (∀ (t : TaskPayload) (dbI : Except GoError (List OrphanPublicAddressGCP))
        (envI : RemoteEnv) (nowI : Nat),
      (HandleReportOrphanPublicAddressGCP t dbI envI nowI).2.countP
        isMetricEffect = 0) :=
  ⟨aws_trace_head p hq hc itemsA env now,
   openstack_trace_head p hq hc itemsO envO now,
   fun t dbZ envZ nowZ => azure_trace_no_metric t dbZ envZ nowZ,
   fun t dbG envG nowG => gcpvm_trace_no_metric t dbG envG nowG,
   fun t dbI envI nowI => gcpaddr_trace_no_metric t dbI envI nowI⟩

/-- Witness for C2 (amended) at the concrete valid payload, empty fetches
and the all-ok remote environment. -/
theorem discovered_metric_amended_witness :
    payload1.query ≠ "" ∧ payload1.componentName ≠ "" ∧
    (∃ rest, (HandleReportOrphanVirtualMachinesAWS (.ok payload1)
        (.ok []) envAllOk 0).2 =
      Effect.dbQuery payload1.query ::
        Effect.metric taskNameAWS "discovered_resources" 0
          "aws" "aws/virtual-machine" :: rest) ∧
    (∃ rest, (HandleReportOrphanVirtualMachinesOpenStack (.ok payload1)
        (.ok []) envAllOk 0).2 =
      Effect.dbQuery payload1.query ::
        Effect.metric taskNameOpenStack "discovered_resources" 0
          "openstack" "openstack/virtual-machine" :: rest) :=
  ⟨by decide, by decide,
   (discovered_metric_amended payload1 (by decide) (by decide) [] []
     envAllOk envAllOk 0).1,
   (discovered_metric_amended payload1 (by decide) (by decide) [] []
     envAllOk envAllOk 0).2.1⟩

/-- rowGCP1 is a concrete GCP VM row fixture. -/
def rowGCP1 : OrphanVirtualMachineGCP :=
  { name := "vm-1", hostname := "", instanceID := 42, projectID := "p1",
    region := "", zone := "", cpuPlatform := "", status := "",
    statusMessage := "", creationTimestamp := "", description := "",
    lastStartTimestamp := "", lastStopTimestamp := "",
    lastSuspendTimestamp := "", machineType := "", gkeClusterName := "",
    gkePoolName := "" }

/-- Counterexample for C7: in a concrete successful GCP VM run the old
runtime artefacts are queried for deletion — and the new batch submitted —
with the two-element label set that carries no component-name label, so
the claimed three-label set {created-by, resource-kind, component-name}
is not used by every runtime-artefact-tracking resource kind. -/
theorem runtime_labels_counterexample :
    Effect.http (.queryRuntimeArtefacts gcpLabels) ∈
      (HandleReportOrphanVirtualMachinesGCP (.ok payload1) (.ok [rowGCP1])
        envAllOk 0).2 ∧
    Effect.http (.submitRuntimeArtefact gcpLabels
        [gcpComponentArtefactID payload1 rowGCP1]) ∈
      (HandleReportOrphanVirtualMachinesGCP (.ok payload1) (.ok [rowGCP1])
        envAllOk 0).2 ∧
    gcpLabels.lookup "component-name" = none ∧
    gcpLabels.length = 2 := by
  refine ⟨?_, ?_, by decide, by decide⟩ <;> decide

set_option maxHeartbeats 1000000 in
/-- C7 amended: whenever the AWS VM handler queries old runtime artefacts
for deletion or submits the new batch, it uses exactly the three-label set
created-by=inventory, resource-kind=aws/virtual-machine,
component-name=payload component name; the GCP VM handler uses, for both
operations, exactly the two-label set created-by=inventory,
resource-kind=gcp/virtual-machine, with no component-name label. -/
theorem runtime_labels_amended (p : Payload) (hq : p.query ≠ "")
    (hc : p.componentName ≠ "") (itemsA : List OrphanVirtualMachineAWS)
    (itemsG : List OrphanVirtualMachineGCP) (env : RemoteEnv) (now : Nat) :
    (∀ ls, Effect.http (.queryRuntimeArtefacts ls) ∈
        (HandleReportOrphanVirtualMachinesAWS (.ok p) (.ok itemsA)
          env now).2 → ls = awsLabels p) ∧
    (∀ ls ras, Effect.http (.submitRuntimeArtefact ls ras) ∈
        (HandleReportOrphanVirtualMachinesAWS (.ok p) (.ok itemsA)
          env now).2 → ls = awsLabels p) ∧
    (∀ ls, Effect.http (.queryRuntimeArtefacts ls) ∈
        (HandleReportOrphanVirtualMachinesGCP (.ok p) (.ok itemsG)
          env now).2 → ls = gcpLabels) ∧
    (∀ ls ras, Effect.http (.submitRuntimeArtefact ls ras) ∈
        (HandleReportOrphanVirtualMachinesGCP (.ok p) (.ok itemsG)
          env now).2 → ls = gcpLabels) ∧
    awsLabels p = [("created-by", "inventory"),
      ("resource-kind", "aws/virtual-machine"),
      ("component-name", p.componentName)] ∧
    gcpLabels = [("created-by", "inventory"),
      ("resource-kind", "gcp/virtual-machine")] ∧
    gcpLabels.lookup "component-name" = none := by
  obtain ⟨qR, dR, qraR, draR, sR, sraR⟩ := env
  refine ⟨?_, ?_, ?_, ?_, rfl, rfl, by decide⟩
  · intro ls
    simp only [HandleReportOrphanVirtualMachinesAWS, DecodePayload,
      if_neg hq, if_neg hc, clientQueryArtefactMetadata,
      clientDeleteArtefactMetadata, clientQueryRuntimeArtefacts,
      clientDeleteRuntimeArtefacts, clientSubmitArtefactMetadata,
      clientSubmitRuntimeArtefact]
    (repeat' split) <;> simp_all
  · intro ls ras
    simp only [HandleReportOrphanVirtualMachinesAWS, DecodePayload,
      if_neg hq, if_neg hc, clientQueryArtefactMetadata,
      clientDeleteArtefactMetadata, clientQueryRuntimeArtefacts,
      clientDeleteRuntimeArtefacts, clientSubmitArtefactMetadata,
      clientSubmitRuntimeArtefact]
    (repeat' split) <;> simp_all
  · intro ls
    simp only [HandleReportOrphanVirtualMachinesGCP, DecodePayload,
      if_neg hq, if_neg hc, clientQueryArtefactMetadata,
      clientDeleteArtefactMetadata, clientQueryRuntimeArtefacts,
      clientDeleteRuntimeArtefacts, clientSubmitArtefactMetadata,
      clientSubmitRuntimeArtefact]
    (repeat' split) <;> simp_all
  · intro ls ras
    simp only [HandleReportOrphanVirtualMachinesGCP, DecodePayload,
      if_neg hq, if_neg hc, clientQueryArtefactMetadata,
      clientDeleteArtefactMetadata, clientQueryRuntimeArtefacts,
      clientDeleteRuntimeArtefacts, clientSubmitArtefactMetadata,
      clientSubmitRuntimeArtefact]
    (repeat' split) <;> simp_all

/-- Witness for C7 (amended) at the concrete valid payload with empty
fetches and the all-ok remote environment. -/
theorem runtime_labels_amended_witness :
    payload1.query ≠ "" ∧ payload1.componentName ≠ "" ∧
    (∀ ls, Effect.http (.queryRuntimeArtefacts ls) ∈
        (HandleReportOrphanVirtualMachinesAWS (.ok payload1) (.ok [])
          envAllOk 0).2 → ls = awsLabels payload1) :=
  ⟨by decide, by decide,
   (runtime_labels_amended payload1 (by decide) (by decide) [] []
     envAllOk 0).1⟩

set_option maxHeartbeats 1000000 in
/-- C8: if the query for existing remote entries fails, every handler
aborts with that error passed through the retry classifier and performs
zero remote-mutating calls; and more generally no step after the first
failing step executes — witnessed for the next step by the AWS handler,
where a failing metadata delete aborts with the classified error after
exactly that one mutating call. -/
theorem query_old_failure_aborts (p : Payload) (hq : p.query ≠ "")
    (hc : p.componentName ≠ "") (now : Nat) :
    (∀ (env : RemoteEnv) (e : GoError) (itemsA : List OrphanVirtualMachineAWS),
      env.queryArtefactMetadataR = .error e →
      (HandleReportOrphanVirtualMachinesAWS (.ok p) (.ok itemsA) env now).1 =
        some (MaybeSkipRetry e) ∧
      (HandleReportOrphanVirtualMachinesAWS (.ok p) (.ok itemsA)
        env now).2.countP isMutatingEffect = 0) ∧
    (∀ (env : RemoteEnv) (e : GoError) (itemsZ : List OrphanVirtualMachineAzure),
      env.queryArtefactMetadataR = .error e →
      (HandleReportOrphanVirtualMachinesAzure (.ok p) (.ok itemsZ) env now).1 =
        some (MaybeSkipRetry e) ∧
      (HandleReportOrphanVirtualMachinesAzure (.ok p) (.ok itemsZ)
        env now).2.countP isMutatingEffect = 0) ∧
    (∀ (env : RemoteEnv) (e : GoError) (itemsG : List OrphanVirtualMachineGCP),
      env.queryArtefactMetadataR = .error e →
      (HandleReportOrphanVirtualMachinesGCP (.ok p) (.ok itemsG) env now).1 =
        some (MaybeSkipRetry e) ∧
      (HandleReportOrphanVirtualMachinesGCP (.ok p) (.ok itemsG)
        env now).2.countP isMutatingEffect = 0) ∧
    (∀ (env : RemoteEnv) (e : GoError) (itemsI : List OrphanPublicAddressGCP),
      env.queryArtefactMetadataR = .error e →
      (HandleReportOrphanPublicAddressGCP (.ok p) (.ok itemsI) env now).1 =
        some (MaybeSkipRetry e) ∧
      (HandleReportOrphanPublicAddressGCP (.ok p) (.ok itemsI)
        env now).2.countP isMutatingEffect = 0) ∧
    (∀ (env : RemoteEnv) (e : GoError) (a : ArtefactMetadata)
        (olds : List ArtefactMetadata) (itemsA : List OrphanVirtualMachineAWS),
      env.queryArtefactMetadataR = .ok (a :: olds) →
      env.deleteArtefactMetadataR = some e →
      (HandleReportOrphanVirtualMachinesAWS (.ok p) (.ok itemsA) env now).1 =
        some (MaybeSkipRetry e) ∧
      (HandleReportOrphanVirtualMachinesAWS (.ok p) (.ok itemsA)
        env now).2.countP isMutatingEffect = 1) := by
  refine ⟨?_, ?_, ?_, ?_, ?_⟩ <;>
    intro env e
  · intro itemsA hqr
    obtain ⟨qR, dR, qraR, draR, sR, sraR⟩ := env
    simp only at hqr
    subst hqr
    simp [HandleReportOrphanVirtualMachinesAWS, DecodePayload, if_neg hq,
      if_neg hc, clientQueryArtefactMetadata, List.countP_append,
      List.countP_cons, isMutatingEffect]
  · intro itemsZ hqr
    obtain ⟨qR, dR, qraR, draR, sR, sraR⟩ := env
    simp only at hqr
    subst hqr
    simp [HandleReportOrphanVirtualMachinesAzure, DecodePayload, if_neg hq,
      if_neg hc, clientQueryArtefactMetadata, List.countP_append,
      List.countP_cons, isMutatingEffect]
  · intro itemsG hqr
    obtain ⟨qR, dR, qraR, draR, sR, sraR⟩ := env
    simp only at hqr
    subst hqr
    simp [HandleReportOrphanVirtualMachinesGCP, DecodePayload, if_neg hq,
      if_neg hc, clientQueryArtefactMetadata, List.countP_append,
      List.countP_cons, isMutatingEffect]
  · intro itemsI hqr
    obtain ⟨qR, dR, qraR, draR, sR, sraR⟩ := env
    simp only at hqr
    subst hqr
    simp [HandleReportOrphanPublicAddressGCP, DecodePayload, if_neg hq,
      if_neg hc, clientQueryArtefactMetadata, List.countP_append,
      List.countP_cons, isMutatingEffect]
  · intro a olds itemsA hqr hdr
    obtain ⟨qR, dR, qraR, draR, sR, sraR⟩ := env
    simp only at hqr hdr
    subst hqr
    subst hdr
    simp [HandleReportOrphanVirtualMachinesAWS, DecodePayload, if_neg hq,
      if_neg hc, clientQueryArtefactMetadata, clientDeleteArtefactMetadata,
      List.countP_append, List.countP_cons, isMutatingEffect]

/-- envQueryFail is a remote environment whose metadata query fails with a
500 APIError. -/
def envQueryFail : RemoteEnv :=
  { queryArtefactMetadataR :=
      .error (.apiError "POST" "/artefacts/metadata/query" 500 "boom")
    deleteArtefactMetadataR := none
    queryRuntimeArtefactsR := .ok []
    deleteRuntimeArtefactsR := none
    submitArtefactMetadataR := none
    submitRuntimeArtefactR := none }

/-- Witness for C8 at the concrete valid payload and a remote environment
whose metadata query fails with a 500 APIError. -/
theorem query_old_failure_aborts_witness :
    payload1.query ≠ "" ∧ payload1.componentName ≠ "" ∧
    envQueryFail.queryArtefactMetadataR =
      .error (.apiError "POST" "/artefacts/metadata/query" 500 "boom") ∧
    ((HandleReportOrphanVirtualMachinesAWS (.ok payload1) (.ok [])
        envQueryFail 0).1 =
      some (MaybeSkipRetry
        (.apiError "POST" "/artefacts/metadata/query" 500 "boom")) ∧
     (HandleReportOrphanVirtualMachinesAWS (.ok payload1) (.ok [])
        envQueryFail 0).2.countP isMutatingEffect = 0) :=
  ⟨by decide, by decide, rfl,
   (query_old_failure_aborts payload1 (by decide) (by decide) 0).1
     envQueryFail _ [] rfl⟩

set_option maxHeartbeats 2000000 in
/-- C5: in every AWS VM run (the only handler that emits it), the
reported-resources gauge with value n appears in the trace exactly when
the whole run — validation, fetch, and every remote step up to and
including the submissions — succeeded and n is the number of fetched
rows; since each row contributes exactly one finding/inventory entry to
the submitted batch, n is the count of newly submitted findings. -/
theorem reported_metric_only_after_success (t : TaskPayload)
    (db : Except GoError (List OrphanVirtualMachineAWS))
    (env : RemoteEnv) (now : Nat) (n : Nat) :
    (Effect.metric taskNameAWS "reported_resources" n
        "aws" "aws/virtual-machine" ∈
        (HandleReportOrphanVirtualMachinesAWS t db env now).2
      ↔ ((HandleReportOrphanVirtualMachinesAWS t db env now).1 = none ∧
         ∃ p items, DecodePayload t = .ok p ∧ db = .ok items ∧
           n = items.length)) ∧
    (∀ (p : Payload) (items : List OrphanVirtualMachineAWS),
      (awsBuildArtefacts p now items).countP isFindingEntry =
        items.length) := by
  constructor
  · obtain ⟨qR, dR, qraR, draR, sR, sraR⟩ := env
    simp only [HandleReportOrphanVirtualMachinesAWS,
      clientQueryArtefactMetadata, clientDeleteArtefactMetadata,
      clientQueryRuntimeArtefacts, clientDeleteRuntimeArtefacts,
      clientSubmitArtefactMetadata, clientSubmitRuntimeArtefact]
    (repeat' split) <;> simp_all
  · intro p items
    induction items with
    | nil => simp [awsBuildArtefacts]
    | cons i rest ih =>
        simp [awsBuildArtefacts, List.countP_cons, isFindingEntry,
          awsFindingArtefact, awsScanInfoArtefact, ih]

/-- payload9 is the end-to-end scenario payload from the spec. -/
def payload9 : Payload :=
  { query := "SELECT i.instance_id, i.vpc_id, i.region_name, i.account_id FROM t"
    componentName := "c", componentVersion := "v1" }

/-- rowAWS1 is the end-to-end scenario AWS VM row from the spec. -/
def rowAWS1 : OrphanVirtualMachineAWS :=
  { name := "", arch := "", instanceID := "i-1", instanceType := "",
    state := "", vpcID := "vpc-1", vpcName := "", regionName := "eu-1",
    accountID := "123", subnetID := "", platform := "", imageID := "",
    launchTime := 0 }

/-- Counterexample for C9: in the spec's end-to-end scenario (one AWS row,
empty prior state, all remote operations succeeding) there is exactly one
submit-findings call, but it carries two entries — the finding and its
artefact-scan-info record — not one. -/
theorem e2e_scenario_counterexample :
    submitFindingsSizes
      (HandleReportOrphanVirtualMachinesAWS (.ok payload9) (.ok [rowAWS1])
        envAllOk 0).2 = [2] ∧ (2 : Nat) ≠ 1 := by
  constructor
  · rfl
  · decide

/-- C9 amended: the end-to-end scenario run succeeds with exactly this
effect trace — one database query, discovered-count set to 1, one
prior-entry query, one runtime-artefact query, one (empty) runtime
artefact delete, exactly one submit-findings call carrying two entries of
which exactly one is a finding (with resource name i-1), one
runtime-artefact submit, and reported-count set to 1. -/
theorem e2e_scenario_amended :
    HandleReportOrphanVirtualMachinesAWS (.ok payload9) (.ok [rowAWS1])
        envAllOk 0 =
      (none,
       [Effect.dbQuery payload9.query,
        Effect.metric taskNameAWS "discovered_resources" 1
          "aws" "aws/virtual-machine",
        Effect.http (.queryArtefactMetadata "finding/inventory"
          [awsQuerySelector payload9]),
        Effect.http (.queryRuntimeArtefacts (awsLabels payload9)),
        Effect.http (.deleteRuntimeArtefacts []),
        Effect.http (.submitArtefactMetadata
          [awsFindingArtefact payload9 0 rowAWS1,
           awsScanInfoArtefact payload9 0 rowAWS1]),
        Effect.http (.submitRuntimeArtefact (awsLabels payload9)
          [awsComponentArtefactID payload9 rowAWS1]),
        Effect.metric taskNameAWS "reported_resources" 1
          "aws" "aws/virtual-machine"]) ∧
    (awsFindingArtefact payload9 0 rowAWS1).data.resourceName = "i-1" ∧
    ([awsFindingArtefact payload9 0 rowAWS1,
      awsScanInfoArtefact payload9 0 rowAWS1].countP isFindingEntry = 1) ∧
    (HandleReportOrphanVirtualMachinesAWS (.ok payload9) (.ok [rowAWS1])
        envAllOk 0).2.countP isSubmitFindingsEffect = 1 := by
  refine ⟨rfl, rfl, ?_, ?_⟩ <;> decide
